import Mathlib

/- Shallow embedding of the valuation calculation engine of the
   valor-vista-ai-advisor repository (AdvancedValuationService and
   FinancialDataService).  JavaScript numbers are modelled as exact
   rationals; where a claim turns on IEEE-754 non-finite values
   (division by zero producing Infinity or NaN) a small JS-number model
   with explicit Infinity and NaN values is used instead. -/

/-- Shape of the mock financial records built by
`AdvancedValuationService.getMockFinancialData` (the engine's
FinancialProfile).  Historical series are stored most-recent-first, as in
the source (`// Last 5 years`). -/
structure MockFinancialData where
  revenue : List ℚ
  netIncome : List ℚ
  operatingIncome : List ℚ
  capex : List ℚ
  cashFromOps : List ℚ
  dividends : List ℚ
  sharesOutstanding : ℚ
  currentPrice : ℚ
  marketCap : ℚ
  totalDebt : ℚ
  interestExpense : ℚ
  beta : ℚ
  paysDividends : Bool
deriving DecidableEq

/-- The `ValuationInputs` interface of AdvancedValuationService. -/
structure ValuationInputs where
  ticker : String
  riskFreeRate : ℚ
  marketReturn : ℚ
  taxRate : ℚ
  terminalGrowthRate : ℚ
  forecastYears : ℕ
deriving DecidableEq

/-- The `DCFResults` interface of AdvancedValuationService. -/
structure DCFResults where
  wacc : ℚ
  costOfEquity : ℚ
  costOfDebt : ℚ
  projectedFCF : List ℚ
  terminalValue : ℚ
  enterpriseValue : ℚ
  equityValue : ℚ
  pricePerShare : ℚ
  currentPrice : ℚ
  upside : ℚ
deriving DecidableEq

/-- The `DDMResults` interface of AdvancedValuationService. -/
structure DDMResults where
  avgDividendGrowth : ℚ
  nextYearDividend : ℚ
  intrinsicValue : ℚ
  currentPrice : ℚ
  upside : ℚ
  applicable : Bool
  reason : Option String
deriving DecidableEq

/-- Executable model of `Math.abs` (the lattice-defined absolute value of
Mathlib does not reduce in the kernel). -/
def jsAbs (q : ℚ) : ℚ := if q < 0 then -q else q

theorem jsAbs_eq_abs (q : ℚ) : jsAbs q = |q| := by
  unfold jsAbs
  split
  · exact (abs_of_neg (by assumption)).symm
  · exact (abs_of_nonneg (by linarith [not_lt.mp (by assumption)])).symm

/-- The growth-rate list built inside
`AdvancedValuationService.calculateAverageGrowthRate`: for each adjacent
pair of entries whose earlier entry is nonzero, the relative change
`(values[i] - values[i-1]) / abs(values[i-1])`.  The pairs
`(values[i-1], values[i])` are exactly `values.zip values.tail`. -/
def growthRatesOf (values : List ℚ) : List ℚ :=
  (values.zip values.tail).filterMap fun pc =>
    if pc.1 ≠ 0 then some ((pc.2 - pc.1) / jsAbs pc.1) else none

/-- `AdvancedValuationService.calculateAverageGrowthRate`: mean of the
period-over-period growth rates, `0` when the series is shorter than two
entries or no pair has a nonzero predecessor. -/
def calculateAverageGrowthRate (values : List ℚ) : ℚ :=
  if values.length < 2 then 0
  else
    let growthRates := growthRatesOf values
    if 0 < growthRates.length then
      growthRates.foldl (fun sum rate => sum + rate) 0 / (growthRates.length : ℚ)
    else 0

/-- The spec's description of the same quantity, written with explicit
indices: for each `i` with `1 <= i < length`, the pair
`(prev, curr) = (values[i-1], values[i])` contributes
`(curr - prev) / abs prev` when `prev` is nonzero. -/
def specGrowthPairs (values : List ℚ) : List ℚ :=
  (List.range (values.length - 1)).filterMap fun i =>
    if values.getD i 0 ≠ 0 then
      some ((values.getD (i + 1) 0 - values.getD i 0) / |values.getD i 0|)
    else none

/-- The AAPL record of `getMockFinancialData`. -/
def aaplData : MockFinancialData where
  revenue := [365817, 394328, 383285, 274515, 260174]
  netIncome := [94680, 99803, 57411, 48351, 45687]
  operatingIncome := [108949, 119437, 70898, 63930, 61344]
  capex := [-11085, -10708, -7309, -13313, -10495]
  cashFromOps := [122151, 104038, 77434, 69391, 50779]
  dividends := [0.94, 0.90, 0.86, 0.82, 0.78]
  sharesOutstanding := 15334
  currentPrice := 180.5
  marketCap := 2850000
  totalDebt := 120000
  interestExpense := 3600
  beta := 1.2
  paysDividends := true

/-- The MSFT record of `getMockFinancialData`. -/
def msftData : MockFinancialData where
  revenue := [211915, 198270, 168088, 143015, 125843]
  netIncome := [72361, 61271, 44281, 39240, 16571]
  operatingIncome := [88523, 76740, 62310, 52959, 22326]
  capex := [-28107, -20622, -13925, -13240, -11632]
  cashFromOps := [87582, 76740, 60675, 52185, 43884]
  dividends := [2.72, 2.48, 2.24, 2.04, 1.84]
  sharesOutstanding := 7430
  currentPrice := 358.0
  marketCap := 2650000
  totalDebt := 60000
  interestExpense := 2400
  beta := 0.9
  paysDividends := true

/-- ASCII model of `String.prototype.toUpperCase`, applied to the ticker
before the mock-data lookup. -/
def jsToUpperCase (s : String) : String :=
  String.mk (s.data.map Char.toUpper)

/-- `AdvancedValuationService.getMockFinancialData`: the upper-cased
ticker selects the AAPL or MSFT record; any other key falls back to the
AAPL record (`baseData[ticker.toUpperCase()] || baseData['AAPL']`). -/
def getMockFinancialData (ticker : String) : MockFinancialData :=
  let key := jsToUpperCase ticker
  if key = "AAPL" then aaplData
  else if key = "MSFT" then msftData
  else aaplData

/-- Projection loop shared by `AdvancedValuationService.calculateDCF`
(lines `for (let i = 1; i <= forecastYears; i++)`) and
`FinancialDataService.projectFCF`: starting from the base cash flow,
repeatedly multiply by `1 + growthRate` and collect the results. -/
def projectFCF (baseFCF growthRate : ℚ) : ℕ → List ℚ
  | 0 => []
  | n + 1 =>
      let currentFCF := baseFCF * (1 + growthRate)
      currentFCF :: projectFCF currentFCF growthRate n

/-- The `projectedFCF.map((fcf, year) => fcf / Math.pow(1 + wacc, year + 1))`
step of both DCF implementations. -/
def presentValuesOf (fcfs : List ℚ) (wacc : ℚ) : List ℚ :=
  fcfs.enum.map fun yf => yf.2 / (1 + wacc) ^ (yf.1 + 1)

/-- `AdvancedValuationService.calculateDCF`.  Every arithmetic step is
carried over literally; `Math.pow` is rational exponentiation here.  The
JavaScript accesses `historicalFCF[0]` and `projectedFCF[length - 1]`
are modelled with default `0` for an empty list (the mock series are
non-empty, so the default is never exercised by the program). -/
def calculateDCF (data : MockFinancialData) (inputs : ValuationInputs) : DCFResults :=
  let costOfEquity := inputs.riskFreeRate + data.beta * (inputs.marketReturn - inputs.riskFreeRate)
  let costOfDebt := data.interestExpense / data.totalDebt * (1 - inputs.taxRate)
  let equity := data.marketCap
  let debt := data.totalDebt
  let totalCapital := equity + debt
  let wacc := equity / totalCapital * costOfEquity + debt / totalCapital * costOfDebt
  let historicalFCF := List.zipWith (fun cfo cap => cfo + cap) data.cashFromOps data.capex
  let avgGrowthRate := calculateAverageGrowthRate historicalFCF
  let projectedFCF := projectFCF (historicalFCF.headD 0) avgGrowthRate inputs.forecastYears
  let terminalFCF := projectedFCF.getLastD 0 * (1 + inputs.terminalGrowthRate)
  let terminalValue := terminalFCF / (wacc - inputs.terminalGrowthRate)
  let presentValues := presentValuesOf projectedFCF wacc
  let terminalPV := terminalValue / (1 + wacc) ^ inputs.forecastYears
  let enterpriseValue := presentValues.foldl (fun sum pv => sum + pv) 0 + terminalPV
  let equityValue := enterpriseValue - data.totalDebt
  let pricePerShare := equityValue / data.sharesOutstanding
  let upside := (pricePerShare - data.currentPrice) / data.currentPrice
  { wacc := wacc
    costOfEquity := costOfEquity
    costOfDebt := costOfDebt
    projectedFCF := projectedFCF
    terminalValue := terminalValue
    enterpriseValue := enterpriseValue
    equityValue := equityValue
    pricePerShare := pricePerShare
    currentPrice := data.currentPrice
    upside := upside }

/-- `AdvancedValuationService.calculateDDM`.  `data.dividends.reverse()`
in the source is `Array.prototype.reverse`, which reverses the array in
place, so the function is modelled with explicit state passing: it
returns the DDM results together with the financial record as it stands
after the call.  `data.dividends[0]` on the line commented
`// Most recent dividend` reads the already-reversed array. -/
def calculateDDM (data : MockFinancialData) (inputs : ValuationInputs) :
    DDMResults × MockFinancialData :=
  if ¬ data.paysDividends ∨ data.dividends.length < 3 then
    ({ avgDividendGrowth := 0
       nextYearDividend := 0
       intrinsicValue := 0
       currentPrice := data.currentPrice
       upside := 0
       applicable := false
       reason := some "Company does not pay dividends or insufficient dividend history" },
     data)
  else
    let reversedDividends := data.dividends.reverse
    let data2 := { data with dividends := reversedDividends }
    let avgDividendGrowth := calculateAverageGrowthRate reversedDividends
    let costOfEquity := inputs.riskFreeRate + data.beta * (inputs.marketReturn - inputs.riskFreeRate)
    if avgDividendGrowth ≥ costOfEquity then
      ({ avgDividendGrowth := avgDividendGrowth
         nextYearDividend := 0
         intrinsicValue := 0
         currentPrice := data.currentPrice
         upside := 0
         applicable := false
         reason := some "Dividend growth rate exceeds cost of equity - DDM not applicable" },
       data2)
    else
      let currentDividend := reversedDividends.headD 0
      let nextYearDividend := currentDividend * (1 + avgDividendGrowth)
      let intrinsicValue := nextYearDividend / (costOfEquity - avgDividendGrowth)
      let upside := (intrinsicValue - data.currentPrice) / data.currentPrice
      ({ avgDividendGrowth := avgDividendGrowth
         nextYearDividend := nextYearDividend
         intrinsicValue := intrinsicValue
         currentPrice := data.currentPrice
         upside := upside
         applicable := true
         reason := none },
       data2)

/-- The four investment classifications appended by
`AdvancedValuationService.generateRecommendation` to its narrative. -/
inductive RecLabel where
  | strongBuy
  | buy
  | hold
  | sell
deriving DecidableEq

/-- The decision cascade of `AdvancedValuationService.generateRecommendation`:
when the DDM is applicable the average of the two upside figures is
classified, otherwise the DCF upside alone, through the same strict
thresholds.  The surrounding narrative sentence, and the constant risk
and strength lists, carry no further information beyond this label. -/
def recommendationLabel (dcf : DCFResults) (ddm : DDMResults) : RecLabel :=
  if ddm.applicable then
    let avgUpside := (dcf.upside + ddm.upside) / 2
    if avgUpside > 0.15 then RecLabel.strongBuy
    else if avgUpside > 0.05 then RecLabel.buy
    else if avgUpside > -0.05 then RecLabel.hold
    else RecLabel.sell
  else
    if dcf.upside > 0.15 then RecLabel.strongBuy
    else if dcf.upside > 0.05 then RecLabel.buy
    else if dcf.upside > -0.05 then RecLabel.hold
    else RecLabel.sell

/-- Output record of `getComprehensiveValuation`; the recommendation is
carried as its classification label. -/
structure ComprehensiveValuation where
  ticker : String
  dcf : DCFResults
  ddm : DDMResults
  recommendation : RecLabel
deriving DecidableEq

/-- `AdvancedValuationService.getComprehensiveValuation`: look up the mock
record for the ticker, run the DCF, run the DDM, classify. -/
def getComprehensiveValuation (ticker : String) (inputs : ValuationInputs) :
    ComprehensiveValuation :=
  let mockData := getMockFinancialData ticker
  let dcfResults := calculateDCF mockData inputs
  let ddmResults := (calculateDDM mockData inputs).1
  { ticker := ticker
    dcf := dcfResults
    ddm := ddmResults
    recommendation := recommendationLabel dcfResults ddmResults }

/-- The `CompanyFinancials` interface of FinancialDataService. -/
structure CompanyFinancials where
  ticker : String
  marketCap : ℚ
  beta : ℚ
  totalDebt : ℚ
  interestExpense : ℚ
  freeCashFlow : ℚ
  revenue : ℚ
  ebitda : ℚ
  sharesOutstanding : ℚ
  currentPrice : ℚ
  taxRate : ℚ
deriving DecidableEq

/-- The `DCFInputs` interface of FinancialDataService. -/
structure DCFInputs where
  riskFreeRate : ℚ
  marketRiskPremium : ℚ
  terminalGrowthRate : ℚ
  forecastYears : ℕ
  taxRate : ℚ
deriving DecidableEq

/-- `FinancialDataService.calculateWACC`, with JavaScript numbers read as
exact rationals (so a division by zero is the rational convention `x / 0 = 0`
here; the IEEE behaviour is captured separately by `calculateWACCjs`). -/
def calculateWACC (financials : CompanyFinancials) (inputs : DCFInputs) : ℚ :=
  let costOfEquity := inputs.riskFreeRate + financials.beta * inputs.marketRiskPremium
  let costOfDebt := financials.interestExpense / financials.totalDebt * (1 - financials.taxRate)
  let totalCapital := financials.marketCap + financials.totalDebt
  let equityWeight := financials.marketCap / totalCapital
  let debtWeight := financials.totalDebt / totalCapital
  equityWeight * costOfEquity + debtWeight * costOfDebt

/-- `FinancialDataService.calculateTerminalValue`: the Gordon Growth
formula applied unconditionally (the source performs no check on the sign
of `wacc - terminalGrowth`).  `AdvancedValuationService.calculateDCF`
computes the same expression inline. -/
def calculateTerminalValue (finalYearFCF terminalGrowth wacc : ℚ) : ℚ :=
  finalYearFCF * (1 + terminalGrowth) / (wacc - terminalGrowth)

/-- The `DCFScenario` interface of FinancialDataService. -/
structure DCFScenario where
  name : String
  growthRate : ℚ
  enterpriseValue : ℚ
  equityValue : ℚ
  pricePerShare : ℚ
  impliedReturn : ℚ
deriving DecidableEq

/-- The body of the `scenarios.map` closure in
`FinancialDataService.runDCFAnalysis`: project the base free cash flow at
the scenario growth rate, discount, and return the scenario record (the
returned enterprise and equity values are scaled by `1000000`, the
source's `// Convert to actual dollars`). -/
def runScenario (financials : CompanyFinancials) (inputs : DCFInputs)
    (name : String) (growthRate : ℚ) : DCFScenario :=
  let wacc := calculateWACC financials inputs
  let projectedFCFs := projectFCF financials.freeCashFlow growthRate inputs.forecastYears
  let terminalValue := calculateTerminalValue (projectedFCFs.getLastD 0)
    inputs.terminalGrowthRate wacc
  let presentValues := presentValuesOf projectedFCFs wacc
  let terminalPV := terminalValue / (1 + wacc) ^ inputs.forecastYears
  let enterpriseValue := presentValues.foldl (fun sum pv => sum + pv) 0 + terminalPV
  let equityValue := enterpriseValue - financials.totalDebt
  let pricePerShare := equityValue / financials.sharesOutstanding
  let impliedReturn := (pricePerShare - financials.currentPrice) / financials.currentPrice
  { name := name
    growthRate := growthRate
    enterpriseValue := enterpriseValue * 1000000
    equityValue := equityValue * 1000000
    pricePerShare := pricePerShare
    impliedReturn := impliedReturn }

/-- `FinancialDataService.runDCFAnalysis`: the three fixed growth
scenarios, each run through the shared discounting block. -/
def runDCFAnalysis (financials : CompanyFinancials) (inputs : DCFInputs) :
    List DCFScenario :=
  [runScenario financials inputs "Bear" 0.01,
   runScenario financials inputs "Base" 0.03,
   runScenario financials inputs "Bull" 0.05]

/-- JavaScript number values relevant to the engine: an exact finite value,
the two infinities, or NaN.  Rounding and overflow of IEEE-754 doubles are
not modelled (every finite value stays exact), but the non-finite results
of dividing by zero and their propagation follow the IEEE rules that
JavaScript arithmetic uses.  Signed zero is collapsed to `num 0`. -/
inductive JSNum where
  | num (q : ℚ)
  | posInf
  | negInf
  | nan
deriving DecidableEq

/-- IEEE addition on the JavaScript number model. -/
def JSNum.add : JSNum → JSNum → JSNum
  | nan, _ => nan
  | _, nan => nan
  | num a, num b => num (a + b)
  | num _, posInf => posInf
  | num _, negInf => negInf
  | posInf, num _ => posInf
  | negInf, num _ => negInf
  | posInf, posInf => posInf
  | negInf, negInf => negInf
  | posInf, negInf => nan
  | negInf, posInf => nan

/-- IEEE subtraction on the JavaScript number model. -/
def JSNum.sub : JSNum → JSNum → JSNum
  | nan, _ => nan
  | _, nan => nan
  | num a, num b => num (a - b)
  | num _, posInf => negInf
  | num _, negInf => posInf
  | posInf, num _ => posInf
  | negInf, num _ => negInf
  | posInf, posInf => nan
  | negInf, negInf => nan
  | posInf, negInf => posInf
  | negInf, posInf => negInf

/-- IEEE multiplication on the JavaScript number model: in particular
`0 * Infinity = NaN`. -/
def JSNum.mul : JSNum → JSNum → JSNum
  | nan, _ => nan
  | _, nan => nan
  | num a, num b => num (a * b)
  | num a, posInf => if a = 0 then nan else if 0 < a then posInf else negInf
  | num a, negInf => if a = 0 then nan else if 0 < a then negInf else posInf
  | posInf, num b => if b = 0 then nan else if 0 < b then posInf else negInf
  | negInf, num b => if b = 0 then nan else if 0 < b then negInf else posInf
  | posInf, posInf => posInf
  | negInf, negInf => posInf
  | posInf, negInf => negInf
  | negInf, posInf => negInf

/-- IEEE division on the JavaScript number model: in particular
`x / 0 = Infinity` for `x > 0`, `-Infinity` for `x < 0`, and `0 / 0 = NaN`
(the zero divisor is JavaScript's `+0`). -/
def JSNum.div : JSNum → JSNum → JSNum
  | nan, _ => nan
  | _, nan => nan
  | num a, num b =>
      if b = 0 then (if a = 0 then nan else if 0 < a then posInf else negInf)
      else num (a / b)
  | num _, posInf => num 0
  | num _, negInf => num 0
  | posInf, num b => if 0 ≤ b then posInf else negInf
  | negInf, num b => if 0 ≤ b then negInf else posInf
  | posInf, _ => nan
  | negInf, _ => nan

instance : Add JSNum := ⟨JSNum.add⟩
instance : Sub JSNum := ⟨JSNum.sub⟩
instance : Mul JSNum := ⟨JSNum.mul⟩
instance : Div JSNum := ⟨JSNum.div⟩

theorem jsAdd_def (a b : JSNum) : a + b = JSNum.add a b := rfl

theorem jsSub_def (a b : JSNum) : a - b = JSNum.sub a b := rfl

theorem jsMul_def (a b : JSNum) : a * b = JSNum.mul a b := rfl

theorem jsDiv_def (a b : JSNum) : a / b = JSNum.div a b := rfl

/-- `FinancialDataService.calculateWACC` once more, step for step, but
with every arithmetic operation given its JavaScript (IEEE-754) meaning,
so that the behaviour on a zero `totalDebt` is rendered faithfully. -/
def calculateWACCjs (financials : CompanyFinancials) (inputs : DCFInputs) : JSNum :=
  let costOfEquity := JSNum.num inputs.riskFreeRate +
    JSNum.num financials.beta * JSNum.num inputs.marketRiskPremium
  let costOfDebt := JSNum.num financials.interestExpense / JSNum.num financials.totalDebt *
    (JSNum.num 1 - JSNum.num financials.taxRate)
  let totalCapital := JSNum.num financials.marketCap + JSNum.num financials.totalDebt
  let equityWeight := JSNum.num financials.marketCap / totalCapital
  let debtWeight := JSNum.num financials.totalDebt / totalCapital
  equityWeight * costOfEquity + debtWeight * costOfDebt

/-- The `upside = (pricePerShare - currentPrice) / currentPrice` line of
`calculateDCF` with JavaScript number semantics. -/
def upsideJs (pricePerShare currentPrice : ℚ) : JSNum :=
  (JSNum.num pricePerShare - JSNum.num currentPrice) / JSNum.num currentPrice

/-- The error kinds named by the specification for the valuation engine. -/
inductive ValuationError where
  | nonConvergentTerminalValue
  | divisionByZero
deriving DecidableEq

/-- Follows the spec's words (TerminalValueCalculator): the Gordon Growth
formula guarded by an explicit `wacc > terminalGrowthRate` check, failing
with `NonConvergentTerminalValue` otherwise.  Stated for comparison with
the source's `calculateTerminalValue`. -/
def specTerminalValue (finalYearFCF terminalGrowth wacc : ℚ) :
    Except ValuationError ℚ :=
  if wacc > terminalGrowth then
    Except.ok (finalYearFCF * (1 + terminalGrowth) / (wacc - terminalGrowth))
  else
    Except.error ValuationError.nonConvergentTerminalValue

/-- Follows the spec's words (DCFEngine step 9): the upside computation
guarded by a `DivisionByZero` check on the current price.  Stated for
comparison with the unguarded upside line of `calculateDCF`. -/
def specUpside (pricePerShare currentPrice : ℚ) : Except ValuationError ℚ :=
  if currentPrice = 0 then Except.error ValuationError.divisionByZero
  else Except.ok ((pricePerShare - currentPrice) / currentPrice)

/- Helper lemmas. -/

theorem growthRatesOf_eq_spec : ∀ values : List ℚ, growthRatesOf values = specGrowthPairs values
  | [] => rfl
  | [_] => rfl
  | a :: b :: t => by
      have ih := growthRatesOf_eq_spec (b :: t)
      unfold growthRatesOf specGrowthPairs at ih ⊢
      simp only [List.length_cons, Nat.add_sub_cancel, List.tail_cons] at ih ⊢
      rw [List.zip_cons_cons, List.filterMap_cons, List.range_succ_eq_map,
        List.filterMap_cons, List.filterMap_map]
      have hcomp :
          ((fun i =>
              if (a :: b :: t).getD i 0 ≠ 0 then
                some (((a :: b :: t).getD (i + 1) 0 - (a :: b :: t).getD i 0) /
                  |(a :: b :: t).getD i 0|)
              else none) ∘ Nat.succ) =
            fun i =>
              if (b :: t).getD i 0 ≠ 0 then
                some (((b :: t).getD (i + 1) 0 - (b :: t).getD i 0) /
                  |(b :: t).getD i 0|)
              else none := by
        funext i
        simp [Function.comp, List.getD_cons_succ]
      rw [hcomp, ← ih]
      by_cases ha : a = 0
      · simp [ha]
      · simp [ha, jsAbs_eq_abs]

theorem growthRatesOf_eq_nil_of_allzero (values : List ℚ) (h : ∀ x ∈ values, x = 0) :
    growthRatesOf values = [] := by
  unfold growthRatesOf
  rw [List.filterMap_eq_nil_iff]
  intro pc hpc
  have h1 : pc.1 ∈ values := (List.of_mem_zip hpc).1
  simp [h pc.1 h1]

theorem projectFCF_length : ∀ (n : ℕ) (b g : ℚ), (projectFCF b g n).length = n
  | 0, _, _ => rfl
  | n + 1, b, g => by
      simpa [projectFCF] using projectFCF_length n (b * (1 + g)) g

theorem enumFrom_discounted_sum (w : ℚ) :
    ∀ (l : List ℚ) (k : ℕ),
      ((List.enumFrom k l).map fun yf => yf.2 / (1 + w) ^ (yf.1 + 1)).sum =
        ∑ i ∈ Finset.range l.length, l.getD i 0 / (1 + w) ^ (k + i + 1)
  | [], k => by simp
  | a :: t, k => by
      rw [List.enumFrom_cons]
      simp only [List.map_cons, List.sum_cons, List.length_cons]
      rw [enumFrom_discounted_sum w t (k + 1), Finset.sum_range_succ']
      have hsum :
          (∑ i ∈ Finset.range t.length,
              (a :: t).getD (i + 1) 0 / (1 + w) ^ (k + (i + 1) + 1)) =
            ∑ i ∈ Finset.range t.length, t.getD i 0 / (1 + w) ^ (k + 1 + i + 1) := by
        refine Finset.sum_congr rfl fun i _ => ?_
        rw [List.getD_cons_succ]
        have hexp : k + (i + 1) + 1 = k + 1 + i + 1 := by omega
        rw [hexp]
      rw [hsum, List.getD_cons_zero]
      ring

theorem presentValues_foldl_sum (l : List ℚ) (w : ℚ) :
    (presentValuesOf l w).foldl (fun sum pv => sum + pv) 0 =
      ∑ i ∈ Finset.range l.length, l.getD i 0 / (1 + w) ^ (i + 1) := by
  rw [← List.sum_eq_foldl]
  unfold presentValuesOf
  have henum : l.enum = List.enumFrom 0 l := rfl
  rw [henum, enumFrom_discounted_sum w l 0]
  exact Finset.sum_congr rfl fun i _ => by rw [Nat.zero_add]

theorem specGrowthPairs_nil_of_short (values : List ℚ) (h : values.length < 2) :
    specGrowthPairs values = [] := by
  unfold specGrowthPairs
  have h0 : values.length - 1 = 0 := by omega
  rw [h0]
  rfl

theorem calculateAverageGrowthRate_allzero (values : List ℚ)
    (h : ∀ x ∈ values, x = 0) : calculateAverageGrowthRate values = 0 := by
  unfold calculateAverageGrowthRate
  rw [growthRatesOf_eq_nil_of_allzero values h]
  simp

theorem headD_zero_of_allzero (l : List ℚ) (h : ∀ x ∈ l, x = 0) : l.headD 0 = 0 := by
  cases l with
  | nil => rfl
  | cons a t => exact h a (List.mem_cons_self a t)

/- Claim theorems. -/

/-- C5: the growth estimator returns the arithmetic mean of
`(curr - prev) / abs prev` over all adjacent pairs whose previous value
is nonzero, and returns `0` when no valid pair exists (series shorter
than two entries, or every previous value zero); the series
`[100, 110, 121]` yields exactly `0.10` and the single-element series
`[100]` yields `0`. -/
theorem growthEstimator_is_mean :
    (∀ values : List ℚ,
      calculateAverageGrowthRate values =
        if specGrowthPairs values = [] then 0
        else (specGrowthPairs values).sum / ((specGrowthPairs values).length : ℚ)) ∧
    (∀ values : List ℚ, (∀ x ∈ values, x = 0) → calculateAverageGrowthRate values = 0) ∧
    calculateAverageGrowthRate [100, 110, 121] = 0.10 ∧
    calculateAverageGrowthRate [100] = 0 := by
  refine ⟨fun values => ?_, fun values h => ?_, ?_, ?_⟩
  · unfold calculateAverageGrowthRate
    rw [growthRatesOf_eq_spec]
    by_cases hlen : values.length < 2
    · rw [if_pos hlen, if_pos (specGrowthPairs_nil_of_short values hlen)]
    · rw [if_neg hlen]
      by_cases hnil : specGrowthPairs values = []
      · simp [hnil]
      · have hpos : 0 < (specGrowthPairs values).length := List.length_pos.mpr hnil
        rw [if_pos hpos, if_neg hnil, ← List.sum_eq_foldl]
  · exact calculateAverageGrowthRate_allzero values h
  · norm_num [calculateAverageGrowthRate, growthRatesOf, jsAbs,
      List.filterMap_cons, List.foldl]
  · norm_num [calculateAverageGrowthRate]

theorem growthEstimator_is_mean_witness : calculateAverageGrowthRate [0, 0, 0] = 0 :=
  growthEstimator_is_mean.2.1 [0, 0, 0] (by norm_num)

/-- C1: the DCF engines satisfy the discounting identities.  For
`AdvancedValuationService.calculateDCF`, the projected free-cash-flow
sequence has length `forecastYears`, the enterprise value is the sum over
`i` of `fcf[i] / (1 + wacc) ^ (i + 1)` plus
`terminalValue / (1 + wacc) ^ forecastYears`, the equity value is the
enterprise value minus total debt, and the price per share is the equity
value divided by shares outstanding.  For every scenario of
`FinancialDataService.runDCFAnalysis` the same identities hold on the
values of its discounting block (the scenario record reports the
enterprise and equity values scaled by `1000000`). -/
theorem dcf_discounting_identities :
    (∀ (data : MockFinancialData) (inputs : ValuationInputs),
      (calculateDCF data inputs).projectedFCF.length = inputs.forecastYears ∧
      (calculateDCF data inputs).enterpriseValue =
        (∑ i ∈ Finset.range inputs.forecastYears,
            (calculateDCF data inputs).projectedFCF.getD i 0 /
              (1 + (calculateDCF data inputs).wacc) ^ (i + 1)) +
          (calculateDCF data inputs).terminalValue /
            (1 + (calculateDCF data inputs).wacc) ^ inputs.forecastYears ∧
      (calculateDCF data inputs).equityValue =
        (calculateDCF data inputs).enterpriseValue - data.totalDebt ∧
      (calculateDCF data inputs).pricePerShare =
        (calculateDCF data inputs).equityValue / data.sharesOutstanding) ∧
    (∀ (financials : CompanyFinancials) (inputs : DCFInputs) (name : String) (g : ℚ),
      (projectFCF financials.freeCashFlow g inputs.forecastYears).length =
        inputs.forecastYears ∧
      (runScenario financials inputs name g).enterpriseValue =
        ((∑ i ∈ Finset.range inputs.forecastYears,
            (projectFCF financials.freeCashFlow g inputs.forecastYears).getD i 0 /
              (1 + calculateWACC financials inputs) ^ (i + 1)) +
          calculateTerminalValue
              ((projectFCF financials.freeCashFlow g inputs.forecastYears).getLastD 0)
              inputs.terminalGrowthRate (calculateWACC financials inputs) /
            (1 + calculateWACC financials inputs) ^ inputs.forecastYears) * 1000000 ∧
      (runScenario financials inputs name g).equityValue =
        ((runScenario financials inputs name g).enterpriseValue / 1000000 -
          financials.totalDebt) * 1000000 ∧
      (runScenario financials inputs name g).pricePerShare =
        ((runScenario financials inputs name g).equityValue / 1000000) /
          financials.sharesOutstanding) := by
  constructor
  · intro data inputs
    unfold calculateDCF
    dsimp only
    refine ⟨projectFCF_length _ _ _, ?_, rfl, rfl⟩
    rw [presentValues_foldl_sum, projectFCF_length]
  · intro financials inputs name g
    unfold runScenario
    dsimp only
    refine ⟨projectFCF_length _ _ _, ?_, ?_, ?_⟩
    · rw [presentValues_foldl_sum, projectFCF_length]
    · rw [mul_div_cancel_right₀ _ (by norm_num : (1000000 : ℚ) ≠ 0)]
    · rw [mul_div_cancel_right₀ _ (by norm_num : (1000000 : ℚ) ≠ 0)]

/-- Follows the spec's words (RecommendationSynthesizer): the strict
threshold cascade on the average upside. -/
def specClassify (avgUpside : ℚ) : RecLabel :=
  if avgUpside > 0.15 then RecLabel.strongBuy
  else if avgUpside > 0.05 then RecLabel.buy
  else if avgUpside > -0.05 then RecLabel.hold
  else RecLabel.sell

/-- C6: the recommendation synthesizer classifies the average of the DCF
and DDM upsides when the DDM is applicable and the DCF upside alone
otherwise, with strict thresholds at `0.15`, `0.05` and `-0.05`; the
boundaries are exclusive, so an average upside of exactly `0.15`
classifies as Buy and exactly `0.05` as Hold. -/
theorem recommendation_thresholds (dcf : DCFResults) (ddm : DDMResults) :
    (recommendationLabel dcf ddm =
      specClassify (if ddm.applicable then (dcf.upside + ddm.upside) / 2 else dcf.upside)) ∧
    (∀ u : ℚ,
      (specClassify u = RecLabel.strongBuy ↔ 0.15 < u) ∧
      (specClassify u = RecLabel.buy ↔ 0.05 < u ∧ u ≤ 0.15) ∧
      (specClassify u = RecLabel.hold ↔ -0.05 < u ∧ u ≤ 0.05) ∧
      (specClassify u = RecLabel.sell ↔ u ≤ -0.05)) ∧
    specClassify 0.15 = RecLabel.buy ∧
    specClassify 0.05 = RecLabel.hold := by
  refine ⟨?_, fun u => ?_, by norm_num [specClassify], by norm_num [specClassify]⟩
  · unfold recommendationLabel specClassify
    cases hA : ddm.applicable <;> simp [hA]
  · unfold specClassify
    split_ifs with h1 h2 h3 <;>
      refine ⟨?_, ?_, ?_, ?_⟩ <;>
        constructor <;> intro hx
    all_goals first
      | rfl
      | linarith
      | (exact hx.elim)
      | (exact RecLabel.noConfusion hx)
      | (constructor <;> linarith)

theorem recommendation_thresholds_witness :
    specClassify 0.20 = RecLabel.strongBuy ∧ specClassify (-0.10) = RecLabel.sell :=
  ⟨((recommendation_thresholds ⟨0, 0, 0, [], 0, 0, 0, 0, 0, 0⟩
        ⟨0, 0, 0, 0, 0, false, none⟩).2.1 0.20).1.mpr (by norm_num),
   ((recommendation_thresholds ⟨0, 0, 0, [], 0, 0, 0, 0, 0, 0⟩
        ⟨0, 0, 0, 0, 0, false, none⟩).2.1 (-0.10)).2.2.2.mpr (by norm_num)⟩

/-- The application's default market assumptions (DataSourceSelector):
risk-free rate 4%, market return 9%, tax rate 21%, terminal growth 2.5%,
five forecast years. -/
def stdInputs : ValuationInputs where
  ticker := "AAPL"
  riskFreeRate := 0.04
  marketReturn := 0.09
  taxRate := 0.21
  terminalGrowthRate := 0.025
  forecastYears := 5

/-- C10: every ticker whose upper-cased form is neither AAPL nor MSFT is
valued on the built-in AAPL mock record, so two such tickers given the
same inputs produce identical DCF results, DDM results and
recommendation, differing only in the echoed ticker field. -/
theorem unrecognized_ticker_falls_back_to_aapl (t1 t2 : String) (inputs : ValuationInputs)
    (h1a : jsToUpperCase t1 ≠ "AAPL") (h1m : jsToUpperCase t1 ≠ "MSFT")
    (h2a : jsToUpperCase t2 ≠ "AAPL") (h2m : jsToUpperCase t2 ≠ "MSFT") :
    getMockFinancialData t1 = aaplData ∧
    (getComprehensiveValuation t1 inputs).dcf = (getComprehensiveValuation t2 inputs).dcf ∧
    (getComprehensiveValuation t1 inputs).ddm = (getComprehensiveValuation t2 inputs).ddm ∧
    (getComprehensiveValuation t1 inputs).recommendation =
      (getComprehensiveValuation t2 inputs).recommendation ∧
    (getComprehensiveValuation t1 inputs).ticker = t1 := by
  have g1 : getMockFinancialData t1 = aaplData := by
    unfold getMockFinancialData
    dsimp only
    rw [if_neg h1a, if_neg h1m]
  have g2 : getMockFinancialData t2 = aaplData := by
    unfold getMockFinancialData
    dsimp only
    rw [if_neg h2a, if_neg h2m]
  refine ⟨g1, ?_⟩
  unfold getComprehensiveValuation
  rw [g1, g2]
  exact ⟨rfl, rfl, rfl, rfl⟩

theorem unrecognized_ticker_falls_back_to_aapl_witness :
    getMockFinancialData "TSLA" = aaplData ∧
    (getComprehensiveValuation "TSLA" stdInputs).dcf =
      (getComprehensiveValuation "goog" stdInputs).dcf ∧
    (getComprehensiveValuation "TSLA" stdInputs).ddm =
      (getComprehensiveValuation "goog" stdInputs).ddm ∧
    (getComprehensiveValuation "TSLA" stdInputs).recommendation =
      (getComprehensiveValuation "goog" stdInputs).recommendation ∧
    (getComprehensiveValuation "TSLA" stdInputs).ticker = "TSLA" :=
  unrecognized_ticker_falls_back_to_aapl "TSLA" "goog" stdInputs
    (by decide) (by decide) (by decide) (by decide)

/-- C2 (amended): the terminal-value computation applies the Gordon Growth
formula unconditionally.  Whenever `wacc > terminalGrowthRate` it equals
`finalYearFCF * (1 + terminalGrowthRate) / (wacc - terminalGrowthRate)`
and agrees with the spec's guarded calculator; the precondition is never
checked, so when `terminalGrowthRate ≥ wacc` the spec's calculator fails
with `NonConvergentTerminalValue` while the source still returns the raw
formula value over the non-positive denominator. -/
theorem terminalValue_unguarded (finalYearFCF terminalGrowth wacc : ℚ) :
    calculateTerminalValue finalYearFCF terminalGrowth wacc =
      finalYearFCF * (1 + terminalGrowth) / (wacc - terminalGrowth) ∧
    (terminalGrowth < wacc →
      specTerminalValue finalYearFCF terminalGrowth wacc =
        Except.ok (calculateTerminalValue finalYearFCF terminalGrowth wacc)) ∧
    (wacc ≤ terminalGrowth →
      specTerminalValue finalYearFCF terminalGrowth wacc =
        Except.error ValuationError.nonConvergentTerminalValue) := by
  refine ⟨rfl, fun h => ?_, fun h => ?_⟩
  · unfold specTerminalValue calculateTerminalValue
    rw [if_pos h]
  · unfold specTerminalValue
    rw [if_neg (not_lt.mpr h)]

theorem terminalValue_unguarded_witness :
    specTerminalValue 100 0.025 0.10 = Except.ok (calculateTerminalValue 100 0.025 0.10) ∧
    calculateTerminalValue 100 0.025 0.10 = 4100 / 3 ∧
    specTerminalValue 100 0.10 0.05 = Except.error ValuationError.nonConvergentTerminalValue :=
  ⟨(terminalValue_unguarded 100 0.025 0.10).2.1 (by norm_num),
   by norm_num [calculateTerminalValue],
   (terminalValue_unguarded 100 0.10 0.05).2.2 (by norm_num)⟩

/-- C2 counterexample: with `terminalGrowthRate = 0.10 ≥ wacc = 0.05` the
source's terminal-value computation does not fail: it returns the
negative-denominator artifact `-2200`, where the spec's guarded
calculator fails with `NonConvergentTerminalValue`. -/
theorem terminalValue_unguarded_counterexample :
    calculateTerminalValue 100 0.10 0.05 = -2200 ∧
    specTerminalValue 100 0.10 0.05 =
      Except.error ValuationError.nonConvergentTerminalValue := by
  constructor
  · norm_num [calculateTerminalValue]
  · norm_num [specTerminalValue]

theorem jsDiv_num_zero (a : ℚ) :
    JSNum.div (JSNum.num a) (JSNum.num 0) =
      if a = 0 then JSNum.nan else if 0 < a then JSNum.posInf else JSNum.negInf := by
  simp [JSNum.div]

theorem costOfDebt_div_zero_nonfinite (ie b : ℚ) :
    JSNum.mul (JSNum.div (JSNum.num ie) (JSNum.num 0)) (JSNum.num b) = JSNum.posInf ∨
    JSNum.mul (JSNum.div (JSNum.num ie) (JSNum.num 0)) (JSNum.num b) = JSNum.negInf ∨
    JSNum.mul (JSNum.div (JSNum.num ie) (JSNum.num 0)) (JSNum.num b) = JSNum.nan := by
  rw [jsDiv_num_zero]
  split_ifs with h1 h2
  · simp [JSNum.mul]
  · simp only [JSNum.mul]
    split_ifs <;> simp
  · simp only [JSNum.mul]
    split_ifs <;> simp

theorem jsMul_zero_nonfinite (x : JSNum)
    (hx : x = JSNum.posInf ∨ x = JSNum.negInf ∨ x = JSNum.nan) :
    JSNum.mul (JSNum.num 0) x = JSNum.nan := by
  rcases hx with h | h | h <;> subst h <;> simp [JSNum.mul]

theorem jsAdd_num_num (a b : ℚ) :
    JSNum.add (JSNum.num a) (JSNum.num b) = JSNum.num (a + b) := rfl

theorem jsSub_num_num (a b : ℚ) :
    JSNum.sub (JSNum.num a) (JSNum.num b) = JSNum.num (a - b) := rfl

theorem jsMul_num_num (a b : ℚ) :
    JSNum.mul (JSNum.num a) (JSNum.num b) = JSNum.num (a * b) := rfl

theorem jsAdd_num_nan (a : ℚ) :
    JSNum.add (JSNum.num a) JSNum.nan = JSNum.nan := rfl

/-- C4 (amended): `calculateWACC` contains no `totalDebt = 0` guard: the
cost of debt divides the interest expense by the total debt
unconditionally.  Under JavaScript number semantics every input with zero
total debt and positive market capitalization therefore yields
`wacc = NaN`: the zero division produces a non-finite cost of debt, and
although the debt weight is `0`, `0 * Infinity` and `0 * NaN` are `NaN`
and `NaN` absorbs the (unaffected, finite) equity-side term. -/
theorem wacc_zero_debt_nan (financials : CompanyFinancials) (inputs : DCFInputs)
    (hdebt : financials.totalDebt = 0) (hmc : 0 < financials.marketCap) :
    calculateWACCjs financials inputs = JSNum.nan := by
  have hmc0 : financials.marketCap ≠ 0 := ne_of_gt hmc
  have hb : financials.marketCap + 0 ≠ 0 := by simpa using hmc0
  unfold calculateWACCjs
  rw [hdebt]
  dsimp only
  simp only [jsAdd_def, jsMul_def, jsSub_def, jsDiv_def, jsSub_num_num, jsAdd_num_num,
    jsMul_num_num]
  have hdw : JSNum.div (JSNum.num 0) (JSNum.num (financials.marketCap + 0)) =
      JSNum.num 0 := by
    simp [JSNum.div, hb, hmc0]
  have hew : JSNum.div (JSNum.num financials.marketCap)
      (JSNum.num (financials.marketCap + 0)) =
      JSNum.num (financials.marketCap / (financials.marketCap + 0)) := by
    simp [JSNum.div, hb, hmc0]
  rw [hdw, hew,
    jsMul_zero_nonfinite _
      (costOfDebt_div_zero_nonfinite financials.interestExpense (1 - financials.taxRate)),
    jsMul_num_num, jsAdd_num_nan]

/-- The AAPL record of `FinancialDataService.fetchCompanyData`, with its
total debt set to zero, the configuration named by the claim. -/
def aaplZeroDebt : CompanyFinancials where
  ticker := "AAPL"
  marketCap := 2850000
  beta := 1.2
  totalDebt := 0
  interestExpense := 3600
  freeCashFlow := 95000
  revenue := 394000
  ebitda := 130000
  sharesOutstanding := 15800
  currentPrice := 180.5
  taxRate := 0.21

/-- The market assumptions named by the claim: risk-free rate 4% and
market return 9%, hence a market risk premium of 5%. -/
def stdDCFInputs : DCFInputs where
  riskFreeRate := 0.04
  marketRiskPremium := 0.05
  terminalGrowthRate := 0.025
  forecastYears := 5
  taxRate := 0.21

/-- C4 counterexample: at `beta = 1.2`, `riskFreeRate = 0.04`,
`marketReturn = 0.09`, `totalDebt = 0` the code's WACC is `NaN` under
JavaScript arithmetic, not the claimed `costOfEquity = 0.10`; only under
the rational convention `x / 0 = 0` (which the running program does not
use) would the claimed value appear. -/
theorem wacc_zero_debt_counterexample :
    calculateWACCjs aaplZeroDebt stdDCFInputs = JSNum.nan ∧
    JSNum.nan ≠ JSNum.num 0.10 ∧
    calculateWACC aaplZeroDebt stdDCFInputs = 0.10 := by
  refine ⟨?_, by simp, ?_⟩
  · norm_num [calculateWACCjs, aaplZeroDebt, stdDCFInputs, jsAdd_def, jsMul_def,
      jsSub_def, jsDiv_def, JSNum.add, JSNum.mul, JSNum.sub, JSNum.div]
  · norm_num [calculateWACC, aaplZeroDebt, stdDCFInputs]

theorem wacc_zero_debt_nan_witness :
    calculateWACCjs aaplZeroDebt stdDCFInputs = JSNum.nan :=
  wacc_zero_debt_nan aaplZeroDebt stdDCFInputs
    (by norm_num [aaplZeroDebt]) (by norm_num [aaplZeroDebt])

/-- C8 (amended): the upside line of `calculateDCF` has no zero-price
guard.  For `currentPrice ≠ 0` the upside equals
`(pricePerShare - currentPrice) / currentPrice` and agrees with the
spec's guarded computation; for `currentPrice = 0` the spec's computation
fails with `DivisionByZero` while the code performs the division anyway,
which under JavaScript arithmetic propagates `Infinity` whenever the
price target is positive. -/
theorem upside_unguarded (data : MockFinancialData) (inputs : ValuationInputs) :
    (data.currentPrice ≠ 0 →
      (calculateDCF data inputs).upside =
        ((calculateDCF data inputs).pricePerShare - data.currentPrice) / data.currentPrice ∧
      specUpside (calculateDCF data inputs).pricePerShare data.currentPrice =
        Except.ok (calculateDCF data inputs).upside) ∧
    (data.currentPrice = 0 →
      specUpside (calculateDCF data inputs).pricePerShare data.currentPrice =
        Except.error ValuationError.divisionByZero ∧
      (0 < (calculateDCF data inputs).pricePerShare →
        upsideJs (calculateDCF data inputs).pricePerShare data.currentPrice =
          JSNum.posInf)) := by
  constructor
  · intro h
    refine ⟨rfl, ?_⟩
    unfold specUpside
    rw [if_neg h]
    rfl
  · intro h0
    refine ⟨by unfold specUpside; rw [if_pos h0], fun hp => ?_⟩
    unfold upsideJs
    rw [h0, jsSub_def, jsDiv_def, jsSub_num_num]
    simp [JSNum.div, ne_of_gt hp, hp]

/-- A small financial record with a zero current price; its other figures
are chosen so that the DCF price target evaluates to exactly 90. -/
def zeroPriceData : MockFinancialData where
  revenue := [100, 110]
  netIncome := [10, 11]
  operatingIncome := [12, 13]
  capex := [0, 0]
  cashFromOps := [110, 100]
  dividends := [1, 1, 1]
  sharesOutstanding := 10
  currentPrice := 0
  marketCap := 100
  totalDebt := 100
  interestExpense := 10
  beta := 1
  paysDividends := true

/-- Inputs under which `zeroPriceData` gives `wacc = 0.1` and a one-year
horizon. -/
def zeroPriceInputs : ValuationInputs where
  ticker := "TEST"
  riskFreeRate := 0.1
  marketReturn := 0.1
  taxRate := 0
  terminalGrowthRate := 0
  forecastYears := 1

/-- C8 counterexample: on a record whose current price is zero the code
does not fail: `calculateDCF` still returns a plain result record (price
target 90), the spec's guarded upside fails with `DivisionByZero`, and
the upside line evaluated with JavaScript number semantics is `Infinity`
(the exact-rational reading of the same line records the `x / 0 = 0`
convention instead). -/
theorem upside_unguarded_counterexample :
    (calculateDCF zeroPriceData zeroPriceInputs).pricePerShare = 90 ∧
    specUpside 90 0 = Except.error ValuationError.divisionByZero ∧
    upsideJs 90 0 = JSNum.posInf ∧
    (calculateDCF zeroPriceData zeroPriceInputs).upside = 0 := by
  refine ⟨?_, by norm_num [specUpside], by norm_num [upsideJs, jsSub_def, jsDiv_def,
    jsSub_num_num, JSNum.div], ?_⟩
  · norm_num [calculateDCF, zeroPriceData, zeroPriceInputs, calculateAverageGrowthRate,
      growthRatesOf, jsAbs, projectFCF, presentValuesOf, List.filterMap_cons, List.foldl]
  · norm_num [calculateDCF, zeroPriceData, zeroPriceInputs, calculateAverageGrowthRate,
      growthRatesOf, jsAbs, projectFCF, presentValuesOf, List.filterMap_cons, List.foldl]

theorem upside_unguarded_witness :
    specUpside (calculateDCF aaplData stdInputs).pricePerShare aaplData.currentPrice =
      Except.ok (calculateDCF aaplData stdInputs).upside ∧
    specUpside (calculateDCF zeroPriceData zeroPriceInputs).pricePerShare
        zeroPriceData.currentPrice = Except.error ValuationError.divisionByZero :=
  ⟨((upside_unguarded aaplData stdInputs).1 (by norm_num [aaplData])).2,
   ((upside_unguarded zeroPriceData zeroPriceInputs).2 (by norm_num [zeroPriceData])).1⟩

/-- C3: on the AAPL record (dividend history stored most-recent-first,
latest-year entry `0.94`), the applicable DDM run computes its next-year
dividend from `0.78` — the oldest entry, which `dividends[0]` denotes
after the in-place `reverse()` — and not from the most recent dividend
`0.94` that the claim (and the code's own `// Most recent dividend`
comment) calls for. -/
theorem ddm_uses_oldest_dividend :
    (calculateDDM aaplData stdInputs).1.applicable = true ∧
    aaplData.dividends.headD 0 = 0.94 ∧
    (calculateDDM aaplData stdInputs).1.nextYearDividend =
      0.78 * (1 + (calculateDDM aaplData stdInputs).1.avgDividendGrowth) ∧
    (calculateDDM aaplData stdInputs).1.nextYearDividend ≠
      0.94 * (1 + (calculateDDM aaplData stdInputs).1.avgDividendGrowth) := by
  norm_num [calculateDDM, aaplData, stdInputs, calculateAverageGrowthRate,
    growthRatesOf, jsAbs, List.filterMap_cons, List.foldl]

/-- C9: a valuation run does not leave its input record unchanged:
`calculateDDM` reverses the profile's dividend history in place (via
`Array.prototype.reverse`), so after the run the AAPL record's dividend
sequence is reversed. -/
theorem ddm_mutates_dividend_history :
    (calculateDDM aaplData stdInputs).2.dividends = aaplData.dividends.reverse ∧
    (calculateDDM aaplData stdInputs).2.dividends ≠ aaplData.dividends := by
  norm_num [calculateDDM, aaplData, stdInputs, calculateAverageGrowthRate,
    growthRatesOf, jsAbs, List.filterMap_cons, List.foldl]

/-- C7 (amended): the DDM gate tests the record's `paysDividends` flag
and the history length, not the dividend values: `applicable = false`
whenever the flag is false or the history has fewer than 3 entries.  An
all-zero history is not itself detected: with the flag true, at least 3
entries and a positive cost of equity the engine proceeds and returns
`applicable = true`, with zero average growth and zero next-year
dividend. -/
theorem ddm_gate (data : MockFinancialData) (inputs : ValuationInputs) :
    (data.dividends.length < 3 → (calculateDDM data inputs).1.applicable = false) ∧
    (data.paysDividends = false → (calculateDDM data inputs).1.applicable = false) ∧
    (data.paysDividends = true → 3 ≤ data.dividends.length →
      (∀ x ∈ data.dividends, x = 0) →
      0 < inputs.riskFreeRate + data.beta * (inputs.marketReturn - inputs.riskFreeRate) →
      (calculateDDM data inputs).1.applicable = true ∧
      (calculateDDM data inputs).1.avgDividendGrowth = 0 ∧
      (calculateDDM data inputs).1.nextYearDividend = 0) := by
  refine ⟨fun h => ?_, fun h => ?_, fun h1 h2 h3 h4 => ?_⟩
  · unfold calculateDDM
    rw [if_pos (Or.inr h)]
  · unfold calculateDDM
    rw [if_pos (Or.inl (by simp [h]))]
  · have hg : ¬(¬(data.paysDividends = true) ∨ data.dividends.length < 3) := by
      push_neg
      exact ⟨h1, by omega⟩
    have hz : ∀ x ∈ data.dividends.reverse, x = 0 :=
      fun x hx => h3 x (List.mem_reverse.mp hx)
    have havg : calculateAverageGrowthRate data.dividends.reverse = 0 :=
      calculateAverageGrowthRate_allzero _ hz
    unfold calculateDDM
    rw [if_neg hg]
    dsimp only
    rw [havg, if_neg (not_le.mpr h4), headD_zero_of_allzero _ hz]
    refine ⟨rfl, rfl, ?_⟩
    dsimp only
    ring

/-- A record with the flagged dividends but an all-zero history. -/
def zeroDivData : MockFinancialData := { aaplData with dividends := [0, 0, 0, 0, 0] }

/-- A record with only two dividend entries. -/
def shortDivData : MockFinancialData := { aaplData with dividends := [0.94, 0.90] }

/-- C7 counterexample: with the dividend history `[0, 0, 0, 0, 0]` (and
the record's paysDividends flag true, as the AAPL record has it) the gate
passes — the flag is set and the history has 5 entries — and the engine
returns `applicable = true`, not the claimed `applicable = false`. -/
theorem ddm_gate_counterexample :
    zeroDivData.dividends = [0, 0, 0, 0, 0] ∧
    zeroDivData.paysDividends = true ∧
    (calculateDDM zeroDivData stdInputs).1.applicable = true := by
  refine ⟨rfl, rfl, ?_⟩
  norm_num [calculateDDM, zeroDivData, aaplData, stdInputs,
    calculateAverageGrowthRate, growthRatesOf, jsAbs, List.filterMap_cons, List.foldl]

theorem ddm_gate_witness :
    (calculateDDM shortDivData stdInputs).1.applicable = false ∧
    (calculateDDM zeroDivData stdInputs).1.applicable = true :=
  ⟨(ddm_gate shortDivData stdInputs).1 (by norm_num [shortDivData, aaplData]),
   ((ddm_gate zeroDivData stdInputs).2.2 rfl
      (by norm_num [zeroDivData, aaplData])
      (fun x hx => by simpa [zeroDivData, aaplData] using hx)
      (by norm_num [zeroDivData, aaplData, stdInputs])).1⟩
